import Mathlib

/-!
Shallow embedding of the scylla-operator node health probes
(pkg/probeserver/scylladbapistatus/prober.go) and of the ScyllaDBDatacenter
status reconciliation (the scylladbdatacenter controller status file), with
theorems about the behaviour of both.

External collaborators (filesystem stat, the service lister, the local
ScyllaDB administrative API client, the pod lister and the helpers of the
naming / controllerhelpers packages) are modelled as explicit environment
records of abstract functions; the control flow of the handlers and of the
status calculation is translated from the Go sources. HTTP responses are
modelled by the numeric status code the handler writes.
-/

/-- Result of an os.Stat call on one path: success, the distinguished
fs.ErrNotExist error, or any other error carrying a message. -/
inductive StatResult where
  | ok : StatResult
  | notExist : StatResult
  | otherErr : String → StatResult
deriving DecidableEq

/-- Whether a stat result is a failure other than absence. -/
def StatResult.isOtherErr : StatResult → Bool
  | .otherErr _ => true
  | _ => false

/-- Whether a stat result is the distinguished absence error. -/
def StatResult.isNotExist : StatResult → Bool
  | .notExist => true
  | _ => false

/-- A cluster Service object as consumed here: only its labels and (through
the abstract naming helper) its backing pod name are read. -/
structure Service where
  labels : String → Option String

/-- A NodeStatusInfo entry returned by the ScyllaDB administrative API
status call. -/
structure NodeStatus where
  addr : String
  hostID : String
  status : String
  state : String
deriving DecidableEq

/-- Modelled from the spec: NodeStatusInfo.IsUN (package scyllaclient, not
part of the included sources) holds when the operational status/state pair
denotes the canonical up-and-normal cluster state. -/
def NodeStatus.IsUN (s : NodeStatus) : Bool :=
  s.status == "U" && s.state == "N"

/-- The local ScyllaDB administrative API client, modelled by the outcome of
each call the probe handlers can issue against it (deterministic within one
invocation). -/
structure ScyllaClient where
  status : Except Unit (List NodeStatus)
  getLocalHostId : Except Unit String
  isNativeTransportEnabled : Except Unit Bool
  ping : Except Unit Unit

/-- The prober configuration (NewProber): namespace, service name and the
await-paths list. The fixed 60s timeout and the request context are not
modelled. -/
structure Prober where
  ns : String
  serviceName : String
  awaitPaths : List String

/-- The external collaborators of one probe invocation: filesystem stat, the
service lister (namespace and name), and ScyllaDB client construction. -/
structure ProberEnv where
  statPath : String → StatResult
  getService : String → String → Except Unit Service
  newScyllaClientForLocalhost : Except Unit ScyllaClient

/-- Modelled from the spec: naming.NodeMaintenanceLabel (not part of the
included sources), the label key whose presence on the node's Service marks
manual maintenance; its exact value is immaterial to the theorems below. -/
def NodeMaintenanceLabel : String := "scylla/node-maintenance"

/-- Prober.isNodeUnderMaintenance: look the node's Service up and test for
the maintenance label. -/
def isNodeUnderMaintenance (env : ProberEnv) (p : Prober) : Except Unit Bool :=
  match env.getService p.ns p.serviceName with
  | .error e => .error e
  | .ok svc => .ok (svc.labels NodeMaintenanceLabel).isSome

/-- One iteration of the Prober.awaitPathsExist loop over the accumulator
(errs, ready): non-absence failures are appended to errs, absence clears the
ready flag. -/
def awaitStep (env : ProberEnv) (acc : List String × Bool) (path : String) :
    List String × Bool :=
  match env.statPath path with
  | .ok => acc
  | .notExist => (acc.1, false)
  | .otherErr msg => (acc.1 ++ ["can't stat path " ++ path ++ ": " ++ msg], acc.2)

/-- Prober.awaitPathsExist: stat every await path; failures other than
absence are collected and aggregated (utilerrors.NewAggregate, nil iff the
collection is empty) into one composite error, returned in the error
position; otherwise the ready flag reports whether no path was absent. -/
def awaitPathsExist (env : ProberEnv) (p : Prober) : Except (List String) Bool :=
  let r := p.awaitPaths.foldl (awaitStep env) ([], true)
  if r.1 = [] then .ok r.2 else .error r.1

/-- The scan loop of Prober.Readyz over the node-status list: at an entry
whose host id matches the local one and which is up-and-normal, query native
transport (query error: 503; enabled: 200; disabled: keep scanning); falling
off the end of the list gives 503. -/
def readyzScan (client : ScyllaClient) (hostID : String) :
    List NodeStatus → Nat
  | [] => 503
  | s :: rest =>
    if s.hostID == hostID && s.IsUN then
      match client.isNativeTransportEnabled with
      | .error _ => 503
      | .ok true => 200
      | .ok false => readyzScan client hostID rest
    else
      readyzScan client hostID rest

/-- Prober.Readyz: await-paths check (aggregate stat error: 500, missing
path: 503), maintenance check (lookup error: 503, label present: 503), then
the ScyllaDB API phase (client construction, node-status list or local host
id error: 500; then the scan). Returns the HTTP status code written. -/
def Readyz (env : ProberEnv) (p : Prober) : Nat :=
  match awaitPathsExist env p with
  | .error _ => 500
  | .ok false => 503
  | .ok true =>
    match isNodeUnderMaintenance env p with
    | .error _ => 503
    | .ok true => 503
    | .ok false =>
      match env.newScyllaClientForLocalhost with
      | .error _ => 500
      | .ok client =>
        match client.status with
        | .error _ => 500
        | .ok nodeStatuses =>
          match client.getLocalHostId with
          | .error _ => 500
          | .ok hostID => readyzScan client hostID nodeStatuses

/-- Prober.Healthz: await-paths check (aggregate stat error: 500, missing
path: healthy 200), maintenance check (lookup error: 503, label present:
healthy 200), then client construction (error: 500) and a liveness ping
(error: 503, success: 200). Returns the HTTP status code written. -/
def Healthz (env : ProberEnv) (p : Prober) : Nat :=
  match awaitPathsExist env p with
  | .error _ => 500
  | .ok false => 200
  | .ok true =>
    match isNodeUnderMaintenance env p with
    | .error _ => 503
    | .ok true => 200
    | .ok false =>
      match env.newScyllaClientForLocalhost with
      | .error _ => 500
      | .ok client =>
        match client.ping with
        | .error _ => 503
        | .ok _ => 200

example :
    Readyz
      { statPath := fun _ => .ok,
        getService := fun _ _ => .ok { labels := fun _ => none },
        newScyllaClientForLocalhost := .ok
          { status := .ok [{ addr := "a", hostID := "h1", status := "U", state := "N" }],
            getLocalHostId := .ok "h1",
            isNativeTransportEnabled := .ok true,
            ping := .ok () } }
      { ns := "ns", serviceName := "svc", awaitPaths := [] } = 200 := by decide

example :
    Readyz
      { statPath := fun _ => .ok,
        getService := fun _ _ => .ok { labels := fun _ => none },
        newScyllaClientForLocalhost := .ok
          { status := .ok [{ addr := "a", hostID := "h1", status := "U", state := "N" }],
            getLocalHostId := .ok "h1",
            isNativeTransportEnabled := .ok false,
            ping := .ok () } }
      { ns := "ns", serviceName := "svc", awaitPaths := [] } = 503 := by decide

/-- A rack entry of the ScyllaDBDatacenter spec; only its name is consumed
by the status controller directly (node counts and member naming go through
the abstract helpers of the environment). -/
structure RackSpec where
  name : String
deriving DecidableEq

/-- The ScyllaDBDatacenter spec fields consumed here: the rack list (in
specification order) and the configured ScyllaDB image. -/
structure ScyllaDBDatacenterSpec where
  racks : List RackSpec
  scyllaDBImage : String
deriving DecidableEq

/-- A typed status condition (metav1.Condition, with the boolean status
standing for ConditionTrue / ConditionFalse; the last-transition time is not
modelled). -/
structure Condition where
  type : String
  status : Bool
  reason : String
  message : String
  observedGeneration : Int
deriving DecidableEq

/-- The per-rack observed status (scyllav1alpha1.RackStatus restricted to
the fields this controller writes). Pointer-valued count fields become
Option Int; absent string fields are empty strings as in Go. -/
structure RackStatus where
  name : String
  nodes : Option Int
  currentNodes : Option Int
  updatedNodes : Option Int
  readyNodes : Option Int
  availableNodes : Option Int
  stale : Option Bool
  currentVersion : String
  updatedVersion : String
deriving DecidableEq

/-- Modelled from the spec: the ScyllaDBDatacenterStatus carries the
observed generation, the typed conditions, the named rack statuses in spec
order and the three aggregated counts (the API type itself is not part of
the included sources; this record holds exactly the fields the spec lists
for it). -/
structure ScyllaDBDatacenterStatus where
  observedGeneration : Option Int
  conditions : List Condition
  racks : List RackStatus
  nodes : Option Int
  readyNodes : Option Int
  availableNodes : Option Int
deriving DecidableEq

/-- The ScyllaDBDatacenter object fields consumed by the status controller. -/
structure ScyllaDBDatacenter where
  name : String
  ns : String
  generation : Int
  spec : ScyllaDBDatacenterSpec
  status : ScyllaDBDatacenterStatus
deriving DecidableEq

/-- A pod as consumed here: the UID of its controller owner reference (none
when it has no controller); everything else about it is only read through
the abstract helper predicates of the environment. -/
structure Pod where
  name : String
  controllerUID : Option String

/-- A rack workload object (appsv1.StatefulSet) reduced to the fields the
status controller reads. -/
structure StatefulSet where
  name : String
  ns : String
  uid : String
  rackNameLabel : String
  specReplicas : Int
  readyReplicas : Int
  availableReplicas : Int
  updatedReplicas : Int
  currentReplicas : Int
  statusObservedGeneration : Int
  generation : Int

/-- The external collaborators of the status controller: the pod lister
(namespace, pod name) and the helper functions of the naming and
controllerhelpers packages, kept abstract. -/
structure DCEnv where
  getPod : String → String → Except Unit Pod
  imageToVersion : String → Except Unit String
  scyllaVersion : Pod → Except Unit String
  statefulSetNameForRack : RackSpec → String → String
  rackNodeCount : ScyllaDBDatacenterSpec → String → Except Unit Int
  memberServiceName : RackSpec → String → Nat → String
  podNameFromService : Service → String
  isScyllaDBIgnitionContainerReady : Pod → Bool
  isDelayedVolumeMountContainerRunning : Pod → Bool

/-- Controller.getScyllaVersion: read the first ordinal member pod of the
workload object, guard that it is actually controlled by that object (a
foreign pod is an error), then read the running Scylla version off it. -/
def getScyllaVersion (env : DCEnv) (sts : StatefulSet) : Except Unit String :=
  match env.getPod sts.ns (sts.name ++ "-0") with
  | .error e => .error e
  | .ok firstMember =>
    match firstMember.controllerUID with
    | none => .error ()
    | some uid =>
      if uid ≠ sts.uid then .error ()
      else env.scyllaVersion firstMember

/-- Controller.calculateRackStatus: a nil workload object yields the
zero-valued stale status; otherwise the counts and staleness are copied from
the object, the updated version is parsed from the configured image (an
empty string on failure), and the current version is the updated version for
zero-sized racks or else read from the first member pod (left empty on
failure). -/
def calculateRackStatus (env : DCEnv) (spec : ScyllaDBDatacenterSpec)
    (sts? : Option StatefulSet) : RackStatus :=
  match sts? with
  | none =>
    { name := "", nodes := some 0, currentNodes := some 0, updatedNodes := some 0,
      readyNodes := some 0, availableNodes := some 0, stale := some true,
      currentVersion := "", updatedVersion := "" }
  | some sts =>
    let scyllaDBImageVersion :=
      match env.imageToVersion spec.scyllaDBImage with
      | .ok v => v
      | .error _ => ""
    let status : RackStatus :=
      { name := sts.rackNameLabel,
        nodes := some sts.specReplicas,
        readyNodes := some sts.readyReplicas,
        availableNodes := some sts.availableReplicas,
        updatedNodes := some sts.updatedReplicas,
        currentNodes := some sts.currentReplicas,
        stale := some (decide (sts.statusObservedGeneration < sts.generation)),
        currentVersion := "",
        updatedVersion := scyllaDBImageVersion }
    if status.nodes = some 0 then
      { status with currentVersion := scyllaDBImageVersion }
    else
      match getScyllaVersion env sts with
      | .error _ => status
      | .ok version => { status with currentVersion := version }

/-- updateAggregatedStatusFields: recompute the three aggregated counts from
zero as sums over the rack statuses in order (a nil per-rack count would be
a nil dereference in Go; the model reads it as 0, and the rack calculator
always sets the counts). -/
def updateAggregatedStatusFields (status : ScyllaDBDatacenterStatus) :
    ScyllaDBDatacenterStatus :=
  { status with
    nodes := some (status.racks.map (fun r => r.nodes.getD 0)).sum,
    readyNodes := some (status.racks.map (fun r => r.readyNodes.getD 0)).sum,
    availableNodes := some (status.racks.map (fun r => r.availableNodes.getD 0)).sum }

/-- Controller.calculateStatus: deep-copy the existing status, set the
observed generation, clear and recompute the rack statuses in specification
order from the StatefulSet map, then recompute the aggregated counts. -/
def calculateStatus (env : DCEnv) (sdc : ScyllaDBDatacenter)
    (statefulSetMap : String → Option StatefulSet) : ScyllaDBDatacenterStatus :=
  updateAggregatedStatusFields
    { sdc.status with
      observedGeneration := some sdc.generation,
      racks := sdc.spec.racks.map fun rack =>
        calculateRackStatus env sdc.spec
          (statefulSetMap (env.statefulSetNameForRack rack sdc.name)) }

/-- Controller.updateStatus: skip the write when the stored status deeply
equals the computed one; otherwise re-aggregate the counts and persist. The
UpdateStatus API write is modelled by returning the persisted object (some);
a skipped write is none. -/
def updateStatus (currentSC : ScyllaDBDatacenter)
    (status : ScyllaDBDatacenterStatus) : Option ScyllaDBDatacenter :=
  if currentSC.status = status then none
  else some { currentSC with status := updateAggregatedStatusFields status }

/-- Modelled from the spec: apimeta.SetStatusCondition merges a condition
into the list by type, replacing the existing entry of the same type or
appending (last-transition-time semantics are not modelled). -/
def setStatusCondition : List Condition → Condition → List Condition
  | [], c => [c]
  | x :: xs, c => if x.type = c.type then c :: xs else x :: setStatusCondition xs c

/-- Modelled from the spec: apimeta.FindStatusCondition returns the first
condition of the given type. -/
def findStatusCondition (conds : List Condition) (t : String) : Option Condition :=
  conds.find? fun c => c.type == t

/-- Modelled from the spec: the PrewarmedCondition type constant of the
scyllav1alpha1 API package. -/
def PrewarmedCondition : String := "Prewarmed"

/-- Modelled from the spec: the internalapi.AsExpectedReason constant. -/
def AsExpectedReason : String := "AsExpected"

/-- The inner ordinal loop of Controller.setPrewarmedStatusCondition, with
its break semantics: a missing member Service or a pod lookup error clears
the flag and breaks out of the ordinal loop; a pod that is not
ignition-ready or whose delayed-volume-mount container is not running clears
the flag but keeps scanning. -/
def prewarmedOrdsAux (env : DCEnv) (services : String → Option Service)
    (sdc : ScyllaDBDatacenter) (rack : RackSpec) : Nat → Nat → Bool → Bool
  | _, 0, prewarmed => prewarmed
  | ord, rem + 1, prewarmed =>
    match services (env.memberServiceName rack sdc.name ord) with
    | none => false
    | some svc =>
      match env.getPod sdc.ns (env.podNameFromService svc) with
      | .error _ => false
      | .ok pod =>
        prewarmedOrdsAux env services sdc rack (ord + 1) rem
          (if env.isScyllaDBIgnitionContainerReady pod &&
              env.isDelayedVolumeMountContainerRunning pod
           then prewarmed else false)

/-- The outer rack loop of Controller.setPrewarmedStatusCondition: a rack
node-count lookup error clears the flag and breaks out of the whole scan;
otherwise the ordinal loop runs and the scan moves to the next rack. -/
def prewarmedRacks (env : DCEnv) (services : String → Option Service)
    (sdc : ScyllaDBDatacenter) : List RackSpec → Bool → Bool
  | [], prewarmed => prewarmed
  | rack :: rest, prewarmed =>
    match env.rackNodeCount sdc.spec rack.name with
    | .error _ => false
    | .ok count =>
      prewarmedRacks env services sdc rest
        (prewarmedOrdsAux env services sdc rack 0 count.toNat prewarmed)

/-- Controller.setPrewarmedStatusCondition: scan all racks and set the
Prewarmed condition to true with the as-expected reason, or to false with
the fixed NotAllNodesPrewarmed reason. -/
def setPrewarmedStatusCondition (env : DCEnv) (sdc : ScyllaDBDatacenter)
    (status : ScyllaDBDatacenterStatus) (services : String → Option Service) :
    ScyllaDBDatacenterStatus :=
  if prewarmedRacks env services sdc sdc.spec.racks true then
    let c : Condition :=
      { type := PrewarmedCondition, status := true, reason := AsExpectedReason,
        message := "", observedGeneration := sdc.generation }
    { status with conditions := setStatusCondition status.conditions c }
  else
    let c : Condition :=
      { type := PrewarmedCondition, status := false, reason := "NotAllNodesPrewarmed",
        message := "Not all nodes are prewarmed yet.",
        observedGeneration := sdc.generation }
    { status with conditions := setStatusCondition status.conditions c }

/-- A service or pod lookup at one ordinal of the prewarm scan fails: the
member Service is absent from the map, or its backing pod cannot be read. -/
def ordinalLookupFails (env : DCEnv) (services : String → Option Service)
    (sdc : ScyllaDBDatacenter) (rack : RackSpec) (ord : Nat) : Bool :=
  match services (env.memberServiceName rack sdc.name ord) with
  | none => true
  | some svc =>
    match env.getPod sdc.ns (env.podNameFromService svc) with
    | .error _ => true
    | .ok _ => false

/-- Some lookup of the prewarm scan fails for the given rack: its node-count
lookup errors, or some ordinal within its node count has a failing service
or pod lookup. -/
def rackLookupFails (env : DCEnv) (services : String → Option Service)
    (sdc : ScyllaDBDatacenter) (rack : RackSpec) : Bool :=
  match env.rackNodeCount sdc.spec rack.name with
  | .error _ => true
  | .ok count => (List.range count.toNat).any (ordinalLookupFails env services sdc rack)

/-- Some lookup of the prewarm scan fails for some rack of the datacenter. -/
def anyLookupFailure (env : DCEnv) (services : String → Option Service)
    (sdc : ScyllaDBDatacenter) : Bool :=
  sdc.spec.racks.any (rackLookupFails env services sdc)

/-- The error message recorded for one failing stat (empty for the other
outcomes, where it is never read). -/
def statErrMsg (env : ProberEnv) (path : String) : String :=
  match env.statPath path with
  | .otherErr msg => "can't stat path " ++ path ++ ": " ++ msg
  | _ => ""

lemma awaitStep_foldl (env : ProberEnv) (ps : List String) (E : List String) (R : Bool) :
    ps.foldl (awaitStep env) (E, R) =
      (E ++ (ps.filter fun path => (env.statPath path).isOtherErr).map (statErrMsg env),
       R && ps.all fun path => !(env.statPath path).isNotExist) := by
  induction ps generalizing E R with
  | nil => simp
  | cons p ps ih =>
    cases h : env.statPath p with
    | ok =>
      simp [List.foldl_cons, awaitStep, h, ih, StatResult.isOtherErr, StatResult.isNotExist]
    | notExist =>
      simp [List.foldl_cons, awaitStep, h, ih, StatResult.isOtherErr, StatResult.isNotExist]
    | otherErr m =>
      simp [List.foldl_cons, awaitStep, h, ih, statErrMsg, StatResult.isOtherErr,
        StatResult.isNotExist]

lemma awaitPathsExist_all_ok (env : ProberEnv) (p : Prober)
    (h : ∀ path ∈ p.awaitPaths, env.statPath path = .ok) :
    awaitPathsExist env p = .ok true := by
  have hfilter : (p.awaitPaths.filter fun path => (env.statPath path).isOtherErr) = [] := by
    rw [List.filter_eq_nil_iff]
    intro a ha
    simp [h a ha, StatResult.isOtherErr]
  have hall : (p.awaitPaths.all fun path => !(env.statPath path).isNotExist) = true := by
    rw [List.all_eq_true]
    intro a ha
    simp [h a ha, StatResult.isNotExist]
  simp [awaitPathsExist, awaitStep_foldl, hfilter, hall]

lemma awaitPathsExist_all_absent (env : ProberEnv) (p : Prober)
    (hne : p.awaitPaths ≠ [])
    (h : ∀ path ∈ p.awaitPaths, env.statPath path = .notExist) :
    awaitPathsExist env p = .ok false := by
  have hfilter : (p.awaitPaths.filter fun path => (env.statPath path).isOtherErr) = [] := by
    rw [List.filter_eq_nil_iff]
    intro a ha
    simp [h a ha, StatResult.isOtherErr]
  have hall : (p.awaitPaths.all fun path => !(env.statPath path).isNotExist) = false := by
    obtain ⟨x, hx⟩ := List.exists_mem_of_ne_nil p.awaitPaths hne
    cases hA : p.awaitPaths.all fun path => !(env.statPath path).isNotExist with
    | false => rfl
    | true =>
      have hx2 := List.all_eq_true.mp hA x hx
      rw [h x hx] at hx2
      simp [StatResult.isNotExist] at hx2
  simp [awaitPathsExist, awaitStep_foldl, hfilter, hall]

lemma awaitPathsExist_error (env : ProberEnv) (p : Prober)
    (h : ∃ path ∈ p.awaitPaths, (env.statPath path).isOtherErr = true) :
    awaitPathsExist env p =
      .error ((p.awaitPaths.filter fun path => (env.statPath path).isOtherErr).map
        (statErrMsg env)) := by
  obtain ⟨x, hx, hox⟩ := h
  have hne : (p.awaitPaths.filter fun path => (env.statPath path).isOtherErr) ≠ [] := by
    intro hc
    have := List.filter_eq_nil_iff.mp hc x hx
    simp [hox] at this
  unfold awaitPathsExist
  rw [awaitStep_foldl]
  simp only [List.nil_append]
  rw [if_neg]
  simpa [List.map_eq_nil_iff] using hne

lemma readyzScan_transport_error (client : ScyllaClient) (hostID : String)
    (l : List NodeStatus) (e : Unit)
    (h : client.isNativeTransportEnabled = .error e) :
    readyzScan client hostID l = 503 := by
  induction l with
  | nil => rfl
  | cons s rest ih =>
    by_cases hm : (s.hostID == hostID && s.IsUN) = true
    · simp [readyzScan, hm, h]
    · simp [readyzScan, hm, ih]

lemma readyzScan_eq_200_iff (client : ScyllaClient) (hostID : String)
    (l : List NodeStatus) :
    readyzScan client hostID l = 200 ↔
      ((∃ s ∈ l, s.hostID = hostID ∧ s.IsUN = true) ∧
        client.isNativeTransportEnabled = .ok true) := by
  induction l with
  | nil => simp [readyzScan]
  | cons s rest ih =>
    by_cases hm : (s.hostID == hostID && s.IsUN) = true
    · have hm2 : s.hostID = hostID ∧ s.IsUN = true := by
        simpa [Bool.and_eq_true, beq_iff_eq] using hm
      cases ht : client.isNativeTransportEnabled with
      | error e => simp [readyzScan, hm, ht]
      | ok b =>
        cases b with
        | true =>
          simp only [readyzScan, if_pos hm, ht]
          constructor
          · intro _
            refine ⟨⟨s, List.mem_cons_self s rest, hm2⟩, ?_⟩
            trivial
          · intro _
            trivial
        | false =>
          simp only [readyzScan, if_pos hm, ht]
          rw [ih]
          simp [ht]
    · simp only [readyzScan, if_neg hm]
      rw [ih]
      constructor
      · rintro ⟨⟨x, hx, hp⟩, htr⟩
        exact ⟨⟨x, List.mem_cons_of_mem s hx, hp⟩, htr⟩
      · rintro ⟨⟨x, hx, hp⟩, htr⟩
        rcases List.mem_cons.mp hx with hxs | hx2
        · exfalso
          apply hm
          rw [hxs] at hp
          simp [Bool.and_eq_true, beq_iff_eq, hp.1, hp.2]
        · exact ⟨⟨x, hx2, hp⟩, htr⟩

lemma readyzScan_transport_disabled (client : ScyllaClient) (hostID : String)
    (l : List NodeStatus) (h : client.isNativeTransportEnabled = .ok false) :
    readyzScan client hostID l = 503 := by
  induction l with
  | nil => rfl
  | cons s rest ih =>
    by_cases hm : (s.hostID == hostID && s.IsUN) = true
    · simp [readyzScan, hm, h, ih]
    · simp [readyzScan, hm, ih]

/-- C1: with the await-paths and maintenance checks passed and the client,
node-status list and local host id obtained, Readyz writes 200 if and only
if the list has an entry whose host id equals the local one and which is
up-and-normal, and the native-transport query returns true; moreover, when
the query returns false the handler writes 503, so with exactly one matching
up/normal entry transport enabled gives 200 and transport disabled gives
503. -/
theorem readyz_ready_iff_un_and_transport (env : ProberEnv) (p : Prober)
    (client : ScyllaClient) (nodeStatuses : List NodeStatus) (hostID : String)
    (h1 : awaitPathsExist env p = .ok true)
    (h2 : isNodeUnderMaintenance env p = .ok false)
    (h3 : env.newScyllaClientForLocalhost = .ok client)
    (h4 : client.status = .ok nodeStatuses)
    (h5 : client.getLocalHostId = .ok hostID) :
    (Readyz env p = 200 ↔
      ((∃ s ∈ nodeStatuses, s.hostID = hostID ∧ s.IsUN = true) ∧
        client.isNativeTransportEnabled = .ok true)) ∧
    (client.isNativeTransportEnabled = .ok false → Readyz env p = 503) := by
  have hred : Readyz env p = readyzScan client hostID nodeStatuses := by
    simp [Readyz, h1, h2, h3, h4, h5]
  constructor
  · rw [hred]
    exact readyzScan_eq_200_iff client hostID nodeStatuses
  · intro hoff
    rw [hred]
    exact readyzScan_transport_disabled client hostID nodeStatuses hoff

/-- A concrete up/normal node-status entry used by the C1 witness. -/
def nodeW1 : NodeStatus := { addr := "a", hostID := "h1", status := "U", state := "N" }

/-- A concrete client used by the C1 witness. -/
def clientW1 : ScyllaClient :=
  { status := .ok [nodeW1], getLocalHostId := .ok "h1",
    isNativeTransportEnabled := .ok true, ping := .ok () }

/-- A concrete environment used by the C1 witness. -/
def envW1 : ProberEnv :=
  { statPath := fun _ => .ok,
    getService := fun _ _ => .ok { labels := fun _ => none },
    newScyllaClientForLocalhost := .ok clientW1 }

/-- A concrete prober configuration used by the C1 witness. -/
def proberW1 : Prober := { ns := "ns", serviceName := "svc", awaitPaths := [] }

/-- A concrete client identical to the enabled one except transport is
disabled, used by the C1 witness. -/
def clientW1b : ScyllaClient :=
  { status := .ok [nodeW1], getLocalHostId := .ok "h1",
    isNativeTransportEnabled := .ok false, ping := .ok () }

/-- A concrete environment around the transport-disabled client, used by the
C1 witness. -/
def envW1b : ProberEnv :=
  { statPath := fun _ => .ok,
    getService := fun _ _ => .ok { labels := fun _ => none },
    newScyllaClientForLocalhost := .ok clientW1b }

/-- Witness for C1: a concrete invocation whose single node-status entry
matches the local host id and is up/normal gives 200 with transport enabled
and 503 with transport disabled. -/
theorem readyz_ready_iff_un_and_transport_witness :
    Readyz envW1 proberW1 = 200 ∧ Readyz envW1b proberW1 = 503 := by
  constructor
  · exact (readyz_ready_iff_un_and_transport envW1 proberW1 clientW1 [nodeW1] "h1"
      rfl rfl rfl rfl rfl).1.mpr ⟨⟨nodeW1, List.mem_cons_self _ _, rfl, rfl⟩, rfl⟩
  · exact (readyz_ready_iff_un_and_transport envW1b proberW1 clientW1b [nodeW1] "h1"
      rfl rfl rfl rfl rfl).2 rfl

/-- C2 counterexample: a concrete invocation where the await-paths check
passes and the Service lookup of the maintenance check fails; both handlers
write 503, not the internal-error code 500 the claim requires. -/
theorem maintenance_lookup_failure_writes_503_not_500 :
    Readyz
      { statPath := fun _ => .ok, getService := fun _ _ => .error (),
        newScyllaClientForLocalhost := .error () }
      { ns := "ns", serviceName := "svc", awaitPaths := [] } = 503 ∧
    Readyz
      { statPath := fun _ => .ok, getService := fun _ _ => .error (),
        newScyllaClientForLocalhost := .error () }
      { ns := "ns", serviceName := "svc", awaitPaths := [] } ≠ 500 ∧
    Healthz
      { statPath := fun _ => .ok, getService := fun _ _ => .error (),
        newScyllaClientForLocalhost := .error () }
      { ns := "ns", serviceName := "svc", awaitPaths := [] } = 503 ∧
    Healthz
      { statPath := fun _ => .ok, getService := fun _ _ => .error (),
        newScyllaClientForLocalhost := .error () }
      { ns := "ns", serviceName := "svc", awaitPaths := [] } ≠ 500 := by
  decide

/-- C2 amended: when the await-paths check passes and the lookup of the
node's exposed Service fails, both Readyz and Healthz write the
unready/unavailable code 503 (not 500). -/
theorem maintenance_lookup_failure_unavailable_both (env : ProberEnv) (p : Prober)
    (h1 : awaitPathsExist env p = .ok true)
    (h2 : ∃ e, isNodeUnderMaintenance env p = .error e) :
    Readyz env p = 503 ∧ Healthz env p = 503 := by
  obtain ⟨e, h2⟩ := h2
  constructor
  · simp [Readyz, h1, h2]
  · simp [Healthz, h1, h2]

/-- A concrete environment with a failing Service lookup, used by the C2
witness. -/
def envW2 : ProberEnv :=
  { statPath := fun _ => .ok, getService := fun _ _ => .error (),
    newScyllaClientForLocalhost := .error () }

/-- A concrete prober configuration used by the C2 witness. -/
def proberW2 : Prober := { ns := "ns", serviceName := "svc", awaitPaths := [] }

/-- Witness for the amended C2 at a concrete failing Service lookup. -/
theorem maintenance_lookup_failure_unavailable_both_witness :
    Readyz envW2 proberW2 = 503 ∧ Healthz envW2 proberW2 = 503 :=
  maintenance_lookup_failure_unavailable_both envW2 proberW2 rfl ⟨(), rfl⟩

/-- C3 counterexample: a concrete invocation reaching the database-API phase
whose node-status list call errors; Readyz writes 500, not the 503 the claim
requires. -/
theorem status_error_writes_500_not_503 :
    Readyz
      { statPath := fun _ => .ok,
        getService := fun _ _ => .ok { labels := fun _ => none },
        newScyllaClientForLocalhost := .ok
          { status := .error (), getLocalHostId := .ok "h1",
            isNativeTransportEnabled := .ok true, ping := .ok () } }
      { ns := "ns", serviceName := "svc", awaitPaths := [] } = 500 ∧
    Readyz
      { statPath := fun _ => .ok,
        getService := fun _ _ => .ok { labels := fun _ => none },
        newScyllaClientForLocalhost := .ok
          { status := .error (), getLocalHostId := .ok "h1",
            isNativeTransportEnabled := .ok true, ping := .ok () } }
      { ns := "ns", serviceName := "svc", awaitPaths := [] } ≠ 503 := by
  decide

/-- C3 amended: in the database-API phase of Readyz, an error from the
node-status list call or from the local host-identifier call writes the
internal-error code 500; only an error from the native-transport call writes
the unready/unavailable code 503. -/
theorem readyz_api_phase_error_codes (env : ProberEnv) (p : Prober)
    (client : ScyllaClient)
    (h1 : awaitPathsExist env p = .ok true)
    (h2 : isNodeUnderMaintenance env p = .ok false)
    (h3 : env.newScyllaClientForLocalhost = .ok client) :
    ((∃ e, client.status = .error e) → Readyz env p = 500) ∧
    (∀ l, client.status = .ok l → (∃ e, client.getLocalHostId = .error e) →
      Readyz env p = 500) ∧
    (∀ l h, client.status = .ok l → client.getLocalHostId = .ok h →
      (∃ e, client.isNativeTransportEnabled = .error e) → Readyz env p = 503) := by
  refine ⟨?_, ?_, ?_⟩
  · rintro ⟨e, he⟩
    simp [Readyz, h1, h2, h3, he]
  · rintro l hl ⟨e, he⟩
    simp [Readyz, h1, h2, h3, hl, he]
  · rintro l h hl hh ⟨e, he⟩
    have : Readyz env p = readyzScan client h l := by
      simp [Readyz, h1, h2, h3, hl, hh]
    rw [this]
    exact readyzScan_transport_error client h l e he

/-- A concrete client whose node-status call fails, used by the C3 witness. -/
def clientW3a : ScyllaClient :=
  { status := .error (), getLocalHostId := .ok "h1",
    isNativeTransportEnabled := .ok true, ping := .ok () }

/-- A concrete client whose host-id call fails, used by the C3 witness. -/
def clientW3b : ScyllaClient :=
  { status := .ok [], getLocalHostId := .error (),
    isNativeTransportEnabled := .ok true, ping := .ok () }

/-- A concrete up/normal node-status entry used by the C3 witness. -/
def nodeW3 : NodeStatus := { addr := "a", hostID := "h1", status := "U", state := "N" }

/-- A concrete client whose native-transport call fails, used by the C3
witness. -/
def clientW3c : ScyllaClient :=
  { status := .ok [nodeW3], getLocalHostId := .ok "h1",
    isNativeTransportEnabled := .error (), ping := .ok () }

/-- A concrete environment around the given client, used by the C3 witness. -/
def envW3 (c : ScyllaClient) : ProberEnv :=
  { statPath := fun _ => .ok,
    getService := fun _ _ => .ok { labels := fun _ => none },
    newScyllaClientForLocalhost := .ok c }

/-- A concrete prober configuration used by the C3 witness. -/
def proberW3 : Prober := { ns := "ns", serviceName := "svc", awaitPaths := [] }

/-- Witness for the amended C3, exercising all three error positions at
concrete clients: a failing node-status call, a failing host-id call, and a
failing native-transport call. -/
theorem readyz_api_phase_error_codes_witness :
    Readyz (envW3 clientW3a) proberW3 = 500 ∧
    Readyz (envW3 clientW3b) proberW3 = 500 ∧
    Readyz (envW3 clientW3c) proberW3 = 503 := by
  refine ⟨?_, ?_, ?_⟩
  · exact (readyz_api_phase_error_codes (envW3 clientW3a) proberW3 clientW3a
      rfl rfl rfl).1 ⟨(), rfl⟩
  · exact (readyz_api_phase_error_codes (envW3 clientW3b) proberW3 clientW3b
      rfl rfl rfl).2.1 [] rfl ⟨(), rfl⟩
  · exact (readyz_api_phase_error_codes (envW3 clientW3c) proberW3 clientW3c
      rfl rfl rfl).2.2 [nodeW3] "h1" rfl rfl ⟨(), rfl⟩

/-- C8: with a non-empty await-paths list, if every path stat fails with the
absence error, Readyz writes 503 and Healthz writes 200; if some path stat
fails for another reason, the composite aggregate of exactly the non-absence
failures is surfaced and both endpoints write 500. -/
theorem await_paths_outcomes (env : ProberEnv) (p : Prober) :
    (p.awaitPaths ≠ [] → (∀ path ∈ p.awaitPaths, env.statPath path = .notExist) →
      Readyz env p = 503 ∧ Healthz env p = 200) ∧
    ((∃ path ∈ p.awaitPaths, (env.statPath path).isOtherErr = true) →
      awaitPathsExist env p =
        .error ((p.awaitPaths.filter fun path => (env.statPath path).isOtherErr).map
          (statErrMsg env)) ∧
      Readyz env p = 500 ∧ Healthz env p = 500) := by
  constructor
  · intro hne hall
    have h := awaitPathsExist_all_absent env p hne hall
    exact ⟨by simp [Readyz, h], by simp [Healthz, h]⟩
  · intro hex
    have h := awaitPathsExist_error env p hex
    exact ⟨h, by simp [Readyz, h], by simp [Healthz, h]⟩

/-- A concrete environment where every path is absent, used by the C8
witness. -/
def envW8a : ProberEnv :=
  { statPath := fun _ => .notExist, getService := fun _ _ => .error (),
    newScyllaClientForLocalhost := .error () }

/-- A concrete environment where every path stat fails for a reason other
than absence, used by the C8 witness. -/
def envW8b : ProberEnv :=
  { statPath := fun _ => .otherErr "boom", getService := fun _ _ => .error (),
    newScyllaClientForLocalhost := .error () }

/-- A concrete prober configuration with one await path, used by the C8
witness. -/
def proberW8 : Prober := { ns := "ns", serviceName := "svc", awaitPaths := ["p"] }

/-- Witness for C8 at a concrete one-path configuration, in both the
all-absent and the other-error situations. -/
theorem await_paths_outcomes_witness :
    (Readyz envW8a proberW8 = 503 ∧ Healthz envW8a proberW8 = 200) ∧
    (Readyz envW8b proberW8 = 500 ∧ Healthz envW8b proberW8 = 500) := by
  constructor
  · exact (await_paths_outcomes envW8a proberW8).1 (by decide) (by decide)
  · exact ((await_paths_outcomes envW8b proberW8).2 (by decide)).2

/-- C9: when the await-paths check passes and the node's exposed Service
carries the maintenance label, Readyz writes 503 and Healthz writes 200 for
every possible outcome of ScyllaDB client construction (both handlers return
before the client is created, so the result is independent of database API
reachability). -/
theorem maintenance_label_unready_healthy (env : ProberEnv) (p : Prober)
    (h1 : awaitPathsExist env p = .ok true)
    (h2 : isNodeUnderMaintenance env p = .ok true) :
    ∀ c : Except Unit ScyllaClient,
      Readyz { env with newScyllaClientForLocalhost := c } p = 503 ∧
      Healthz { env with newScyllaClientForLocalhost := c } p = 200 := by
  intro c
  have h1c : awaitPathsExist { env with newScyllaClientForLocalhost := c } p =
      .ok true := h1
  have h2c : isNodeUnderMaintenance { env with newScyllaClientForLocalhost := c } p =
      .ok true := h2
  exact ⟨by simp [Readyz, h1c, h2c], by simp [Healthz, h1c, h2c]⟩

/-- A concrete environment whose Service carries the maintenance label, used
by the C9 witness. -/
def envW9 : ProberEnv :=
  { statPath := fun _ => .ok,
    getService := fun _ _ => .ok { labels := fun _ => some "" },
    newScyllaClientForLocalhost := .error () }

/-- A concrete prober configuration used by the C9 witness. -/
def proberW9 : Prober := { ns := "ns", serviceName := "svc", awaitPaths := [] }

/-- Witness for C9 at a concrete labelled Service and an unavailable client
constructor. -/
theorem maintenance_label_unready_healthy_witness :
    Readyz envW9 proberW9 = 503 ∧ Healthz envW9 proberW9 = 200 :=
  maintenance_label_unready_healthy envW9 proberW9 rfl rfl (.error ())

/-- C7: calculateRackStatus maps a nil workload object to the all-zero,
stale, version-less rack status, and for a present object reports staleness
exactly when the observed generation is strictly below the desired one
(equal generations give false). -/
theorem calculateRackStatus_nil_and_stale (env : DCEnv)
    (spec : ScyllaDBDatacenterSpec) (sts : StatefulSet) :
    calculateRackStatus env spec none =
      { name := "", nodes := some 0, currentNodes := some 0, updatedNodes := some 0,
        readyNodes := some 0, availableNodes := some 0, stale := some true,
        currentVersion := "", updatedVersion := "" } ∧
    (calculateRackStatus env spec (some sts)).stale =
      some (decide (sts.statusObservedGeneration < sts.generation)) := by
  constructor
  · rfl
  · unfold calculateRackStatus
    dsimp only
    split
    · rfl
    · split <;> rfl

/-- C10: calculateStatus carries the conditions of the previous status over
unchanged (the only field of the status record besides the observed
generation, the rack list and the three aggregated counts, which are the
fields it recomputes), and sets the observed generation from the object. -/
theorem calculateStatus_frame (env : DCEnv) (sdc : ScyllaDBDatacenter)
    (m : String → Option StatefulSet) :
    (calculateStatus env sdc m).conditions = sdc.status.conditions ∧
    (calculateStatus env sdc m).observedGeneration = some sdc.generation :=
  ⟨rfl, rfl⟩

/-- The aggregation invariant of a datacenter status: each aggregated count
is the sum of the corresponding per-rack counts. -/
def aggInvariant (s : ScyllaDBDatacenterStatus) : Prop :=
  s.nodes = some (s.racks.map (fun r => r.nodes.getD 0)).sum ∧
  s.readyNodes = some (s.racks.map (fun r => r.readyNodes.getD 0)).sum ∧
  s.availableNodes = some (s.racks.map (fun r => r.availableNodes.getD 0)).sum

lemma aggInvariant_updateAggregatedStatusFields (s : ScyllaDBDatacenterStatus) :
    aggInvariant (updateAggregatedStatusFields s) :=
  ⟨rfl, rfl, rfl⟩

/-- C6: every status computed by calculateStatus, and every status persisted
by updateStatus, satisfies the aggregation invariant: the datacenter-level
Nodes, ReadyNodes and AvailableNodes equal the sums of the corresponding
per-rack counts, recomputed from zero. -/
theorem aggregated_counts_invariant (env : DCEnv) (sdc : ScyllaDBDatacenter)
    (m : String → Option StatefulSet) (c : ScyllaDBDatacenter)
    (s : ScyllaDBDatacenterStatus) :
    aggInvariant (calculateStatus env sdc m) ∧
    ∀ out, updateStatus c s = some out → aggInvariant out.status := by
  constructor
  · exact aggInvariant_updateAggregatedStatusFields _
  · intro out h
    by_cases hcs : c.status = s
    · simp [updateStatus, hcs] at h
    · simp only [updateStatus, if_neg hcs, Option.some.injEq] at h
      rw [← h]
      exact aggInvariant_updateAggregatedStatusFields s

/-- A concrete controller environment used by the C6 witness. -/
def envW6 : DCEnv :=
  { getPod := fun _ _ => .error (), imageToVersion := fun _ => .error (),
    scyllaVersion := fun _ => .error (),
    statefulSetNameForRack := fun rack dcName => dcName ++ "-" ++ rack.name,
    rackNodeCount := fun _ _ => .error (),
    memberServiceName := fun rack _ _ => rack.name,
    podNameFromService := fun _ => "",
    isScyllaDBIgnitionContainerReady := fun _ => false,
    isDelayedVolumeMountContainerRunning := fun _ => false }

/-- A concrete empty datacenter status used by the C6 witness. -/
def statusW6 : ScyllaDBDatacenterStatus :=
  { observedGeneration := none, conditions := [], racks := [],
    nodes := none, readyNodes := none, availableNodes := none }

/-- A concrete datacenter object used by the C6 witness. -/
def sdcW6 : ScyllaDBDatacenter :=
  { name := "dc", ns := "ns", generation := 1,
    spec := { racks := [{ name := "r1" }], scyllaDBImage := "img" },
    status := statusW6 }

/-- A concrete computed status used by the C6 witness. -/
def sW6 : ScyllaDBDatacenterStatus :=
  { observedGeneration := some 1, conditions := [],
    racks := [{ name := "r1", nodes := some 3, currentNodes := some 3,
                updatedNodes := some 3, readyNodes := some 2,
                availableNodes := some 1, stale := some false,
                currentVersion := "", updatedVersion := "" }],
    nodes := none, readyNodes := none, availableNodes := none }

/-- The object the C6 witness expects updateStatus to persist. -/
def outW6 : ScyllaDBDatacenter :=
  { sdcW6 with status := updateAggregatedStatusFields sW6 }

/-- Witness for C6: the invariant evaluated at a concrete calculation and at
a concrete persisted object. -/
theorem aggregated_counts_invariant_witness :
    aggInvariant (calculateStatus envW6 sdcW6 (fun _ => none)) ∧
    aggInvariant outW6.status := by
  constructor
  · exact (aggregated_counts_invariant envW6 sdcW6 (fun _ => none) sdcW6 sW6).1
  · exact (aggregated_counts_invariant envW6 sdcW6 (fun _ => none) sdcW6 sW6).2
      outW6 (by decide)

lemma updateAggregatedStatusFields_idem (s : ScyllaDBDatacenterStatus) :
    updateAggregatedStatusFields (updateAggregatedStatusFields s) =
      updateAggregatedStatusFields s := rfl

lemma updateStatus_eq_none_iff (c : ScyllaDBDatacenter)
    (s : ScyllaDBDatacenterStatus) :
    updateStatus c s = none ↔ c.status = s := by
  by_cases hcs : c.status = s
  · simp [updateStatus, hcs]
  · simp [updateStatus, hcs]

lemma calculateStatus_recompute (env : DCEnv) (sdc sdc1 : ScyllaDBDatacenter)
    (m : String → Option StatefulSet)
    (hname : sdc1.name = sdc.name) (hspec : sdc1.spec = sdc.spec)
    (hgen : sdc1.generation = sdc.generation)
    (hstat : sdc1.status = calculateStatus env sdc m) :
    calculateStatus env sdc1 m = calculateStatus env sdc m := by
  unfold calculateStatus at hstat ⊢
  rw [hname, hspec, hgen, hstat]
  rfl

/-- C5: updateStatus persists exactly when the computed status differs by
(structural, deep) equality from the stored one; and after one pass over an
unchanged snapshot, recomputation from the resulting object reproduces the
same status content and the second updateStatus performs no write. -/
theorem updateStatus_skip_iff_equal_and_idempotent (env : DCEnv)
    (sdc : ScyllaDBDatacenter) (m : String → Option StatefulSet)
    (c : ScyllaDBDatacenter) (s : ScyllaDBDatacenterStatus) :
    (updateStatus c s = none ↔ c.status = s) ∧
    calculateStatus env ((updateStatus sdc (calculateStatus env sdc m)).getD sdc) m =
      calculateStatus env sdc m ∧
    updateStatus ((updateStatus sdc (calculateStatus env sdc m)).getD sdc)
      (calculateStatus env ((updateStatus sdc (calculateStatus env sdc m)).getD sdc) m) =
      none := by
  refine ⟨updateStatus_eq_none_iff c s, ?_⟩
  by_cases h : sdc.status = calculateStatus env sdc m
  · have hnone : updateStatus sdc (calculateStatus env sdc m) = none :=
      (updateStatus_eq_none_iff sdc _).mpr h
    rw [hnone]
    simp only [Option.getD_none]
    exact ⟨trivial, (updateStatus_eq_none_iff sdc _).mpr h⟩
  · have hsome : updateStatus sdc (calculateStatus env sdc m) =
        some { sdc with
          status := updateAggregatedStatusFields (calculateStatus env sdc m) } := by
      simp [updateStatus, h]
    rw [hsome]
    simp only [Option.getD_some]
    have hagg : updateAggregatedStatusFields (calculateStatus env sdc m) =
        calculateStatus env sdc m := by
      unfold calculateStatus
      exact updateAggregatedStatusFields_idem _
    have hrec : calculateStatus env
        { sdc with
          status := updateAggregatedStatusFields (calculateStatus env sdc m) } m =
        calculateStatus env sdc m := by
      exact calculateStatus_recompute env sdc _ m rfl rfl rfl hagg
    refine ⟨hrec, (updateStatus_eq_none_iff _ _).mpr ?_⟩
    rw [hrec]
    exact hagg

lemma prewarmedOrdsAux_false (env : DCEnv) (services : String → Option Service)
    (sdc : ScyllaDBDatacenter) (rack : RackSpec) :
    ∀ rem ord, prewarmedOrdsAux env services sdc rack ord rem false = false := by
  intro rem
  induction rem with
  | zero => intro ord; rfl
  | succ n ih =>
    intro ord
    cases hs : services (env.memberServiceName rack sdc.name ord) with
    | none => simp only [prewarmedOrdsAux, hs]
    | some svc =>
      cases hp : env.getPod sdc.ns (env.podNameFromService svc) with
      | error e => simp only [prewarmedOrdsAux, hs, hp]
      | ok pod =>
        simp only [prewarmedOrdsAux, hs, hp, ite_self]
        exact ih (ord + 1)

lemma prewarmedRacks_false (env : DCEnv) (services : String → Option Service)
    (sdc : ScyllaDBDatacenter) :
    ∀ racks, prewarmedRacks env services sdc racks false = false := by
  intro racks
  induction racks with
  | nil => rfl
  | cons rack rest ih =>
    cases hc : env.rackNodeCount sdc.spec rack.name with
    | error e => simp only [prewarmedRacks, hc]
    | ok count =>
      simp only [prewarmedRacks, hc]
      rw [prewarmedOrdsAux_false]
      exact ih

lemma prewarmedOrdsAux_failure (env : DCEnv) (services : String → Option Service)
    (sdc : ScyllaDBDatacenter) (rack : RackSpec) :
    ∀ rem ord b,
      (∃ i, i < rem ∧ ordinalLookupFails env services sdc rack (ord + i) = true) →
      prewarmedOrdsAux env services sdc rack ord rem b = false := by
  intro rem
  induction rem with
  | zero =>
    rintro ord b ⟨i, hi, _⟩
    exact absurd hi (Nat.not_lt_zero i)
  | succ n ih =>
    rintro ord b ⟨i, hi, hf⟩
    cases hs : services (env.memberServiceName rack sdc.name ord) with
    | none => simp only [prewarmedOrdsAux, hs]
    | some svc =>
      cases hp : env.getPod sdc.ns (env.podNameFromService svc) with
      | error e => simp only [prewarmedOrdsAux, hs, hp]
      | ok pod =>
        simp only [prewarmedOrdsAux, hs, hp]
        cases i with
        | zero =>
          exfalso
          simp [ordinalLookupFails, Nat.add_zero, hs, hp] at hf
        | succ j =>
          apply ih (ord + 1)
          refine ⟨j, by omega, ?_⟩
          have hidx : ord + 1 + j = ord + (j + 1) := by omega
          rw [hidx]
          exact hf

lemma prewarmedRacks_failure (env : DCEnv) (services : String → Option Service)
    (sdc : ScyllaDBDatacenter) :
    ∀ racks b, racks.any (rackLookupFails env services sdc) = true →
      prewarmedRacks env services sdc racks b = false := by
  intro racks
  induction racks with
  | nil =>
    intro b h
    simp at h
  | cons rack rest ih =>
    intro b h
    rw [List.any_cons] at h
    have h2 : rackLookupFails env services sdc rack = true ∨
        rest.any (rackLookupFails env services sdc) = true :=
      Bool.or_eq_true_iff.mp h
    cases hc : env.rackNodeCount sdc.spec rack.name with
    | error e => simp only [prewarmedRacks, hc]
    | ok count =>
      simp only [prewarmedRacks, hc]
      rcases h2 with hrack | hrest
      · unfold rackLookupFails at hrack
        rw [hc] at hrack
        obtain ⟨x, hx, hfx⟩ := List.any_eq_true.mp hrack
        have hxlt : x < count.toNat := List.mem_range.mp hx
        have haux : prewarmedOrdsAux env services sdc rack 0 count.toNat b = false := by
          apply prewarmedOrdsAux_failure env services sdc rack count.toNat 0 b
          refine ⟨x, hxlt, ?_⟩
          rw [Nat.zero_add]
          exact hfx
        rw [haux]
        exact prewarmedRacks_false env services sdc rest
      · exact ih (prewarmedOrdsAux env services sdc rack 0 count.toNat b) hrest

lemma findStatusCondition_setStatusCondition (conds : List Condition)
    (c : Condition) :
    findStatusCondition (setStatusCondition conds c) c.type = some c := by
  induction conds with
  | nil => simp [setStatusCondition, findStatusCondition]
  | cons x xs ih =>
    by_cases h : x.type = c.type
    · simp [setStatusCondition, findStatusCondition, h]
    · simp only [setStatusCondition, if_neg h]
      unfold findStatusCondition
      rw [List.find?_cons_of_neg]
      · exact ih
      · simp [h]

/-- C4 (amended): the Prewarmed condition computation is a total function of
its inputs (it always merges a Prewarmed condition into the status, never
returning an error), and whenever any rack node-count, member-service or pod
lookup of the scan fails it sets the condition to false with the fixed
non-empty reason NotAllNodesPrewarmed. -/
theorem prewarmed_condition_total_and_lookup_failure (env : DCEnv)
    (sdc : ScyllaDBDatacenter) (status : ScyllaDBDatacenterStatus)
    (services : String → Option Service) :
    (∃ c, findStatusCondition
        (setPrewarmedStatusCondition env sdc status services).conditions
        PrewarmedCondition = some c) ∧
    (anyLookupFailure env services sdc = true →
      findStatusCondition
        (setPrewarmedStatusCondition env sdc status services).conditions
        PrewarmedCondition =
        some { type := PrewarmedCondition, status := false,
               reason := "NotAllNodesPrewarmed",
               message := "Not all nodes are prewarmed yet.",
               observedGeneration := sdc.generation } ∧
      "NotAllNodesPrewarmed" ≠ "") := by
  constructor
  · unfold setPrewarmedStatusCondition
    by_cases hp : prewarmedRacks env services sdc sdc.spec.racks true = true
    · rw [if_pos hp]
      exact ⟨_, findStatusCondition_setStatusCondition status.conditions _⟩
    · rw [if_neg hp]
      exact ⟨_, findStatusCondition_setStatusCondition status.conditions _⟩
  · intro h
    have hpw : prewarmedRacks env services sdc sdc.spec.racks true = false :=
      prewarmedRacks_failure env services sdc sdc.spec.racks true h
    unfold setPrewarmedStatusCondition
    rw [hpw]
    refine ⟨?_, by decide⟩
    simp only [Bool.false_eq_true, if_false]
    exact findStatusCondition_setStatusCondition status.conditions _

/-- A concrete datacenter object with one rack, used by the C4
counterexample. -/
def sdcX4 : ScyllaDBDatacenter :=
  { name := "dc", ns := "ns", generation := 2,
    spec := { racks := [{ name := "r1" }], scyllaDBImage := "img" },
    status := { observedGeneration := none, conditions := [], racks := [],
                nodes := none, readyNodes := none, availableNodes := none } }

/-- A concrete environment whose rack node-count lookup fails, used by the
C4 counterexample. -/
def envX4fail : DCEnv :=
  { getPod := fun _ _ => .error (), imageToVersion := fun _ => .error (),
    scyllaVersion := fun _ => .error (),
    statefulSetNameForRack := fun rack _ => rack.name,
    rackNodeCount := fun _ _ => .error (),
    memberServiceName := fun rack _ _ => rack.name,
    podNameFromService := fun _ => "pod",
    isScyllaDBIgnitionContainerReady := fun _ => true,
    isDelayedVolumeMountContainerRunning := fun _ => true }

/-- A concrete environment where every lookup succeeds but the pod is not
ignition-ready (a pure not-yet-ready situation), used by the C4
counterexample. -/
def envX4ready : DCEnv :=
  { getPod := fun _ _ => .ok { name := "pod", controllerUID := none },
    imageToVersion := fun _ => .error (),
    scyllaVersion := fun _ => .error (),
    statefulSetNameForRack := fun rack _ => rack.name,
    rackNodeCount := fun _ _ => .ok 1,
    memberServiceName := fun rack _ _ => rack.name,
    podNameFromService := fun _ => "pod",
    isScyllaDBIgnitionContainerReady := fun _ => false,
    isDelayedVolumeMountContainerRunning := fun _ => true }

/-- A concrete service map holding every member service, used by the C4
counterexample. -/
def servicesX4 : String → Option Service := fun _ => some { labels := fun _ => none }

/-- C4 counterexample: a lookup-failure input and a pure not-yet-ready input
produce the Prewarmed condition with the identical reason
NotAllNodesPrewarmed, so the reason does not distinguish lookup failure from
not yet ready. -/
theorem prewarmed_reason_not_distinguishing :
    anyLookupFailure envX4fail servicesX4 sdcX4 = true ∧
    anyLookupFailure envX4ready servicesX4 sdcX4 = false ∧
    (findStatusCondition
      (setPrewarmedStatusCondition envX4fail sdcX4 sdcX4.status servicesX4).conditions
      PrewarmedCondition).map Condition.reason =
      (findStatusCondition
        (setPrewarmedStatusCondition envX4ready sdcX4 sdcX4.status servicesX4).conditions
        PrewarmedCondition).map Condition.reason ∧
    (findStatusCondition
      (setPrewarmedStatusCondition envX4fail sdcX4 sdcX4.status servicesX4).conditions
      PrewarmedCondition).map Condition.reason = some "NotAllNodesPrewarmed" := by
  decide

/-- A concrete datacenter object used by the C4 witness. -/
def sdcW4 : ScyllaDBDatacenter :=
  { name := "dc", ns := "ns", generation := 3,
    spec := { racks := [{ name := "r1" }], scyllaDBImage := "img" },
    status := { observedGeneration := none, conditions := [], racks := [],
                nodes := none, readyNodes := none, availableNodes := none } }

/-- A concrete environment whose rack node-count lookup fails, used by the
C4 witness. -/
def envW4 : DCEnv :=
  { getPod := fun _ _ => .error (), imageToVersion := fun _ => .error (),
    scyllaVersion := fun _ => .error (),
    statefulSetNameForRack := fun rack _ => rack.name,
    rackNodeCount := fun _ _ => .error (),
    memberServiceName := fun rack _ _ => rack.name,
    podNameFromService := fun _ => "pod",
    isScyllaDBIgnitionContainerReady := fun _ => true,
    isDelayedVolumeMountContainerRunning := fun _ => true }

/-- Witness for the amended C4: at a concrete failing node-count lookup, the
Prewarmed condition comes out false with the NotAllNodesPrewarmed reason. -/
theorem prewarmed_condition_total_and_lookup_failure_witness :
    findStatusCondition
      (setPrewarmedStatusCondition envW4 sdcW4 sdcW4.status (fun _ => none)).conditions
      PrewarmedCondition =
      some { type := PrewarmedCondition, status := false,
             reason := "NotAllNodesPrewarmed",
             message := "Not all nodes are prewarmed yet.",
             observedGeneration := sdcW4.generation } :=
  ((prewarmed_condition_total_and_lookup_failure envW4 sdcW4 sdcW4.status
    (fun _ => none)).2 (by decide)).1
